import Mathlib

/-!
Verification development for the supervisor delegation loop of the
ai-agent-mastery repository (component 7.7-SupervisorAgent), together with
the worker tool functions it dispatches to.

The decision schema is embedded from
7_Agent_Architecture/7.7-SupervisorAgent/agents/supervisor_agent.py and
streaming_poc.py; the worker tools from agents/email_draft_agent.py and
tools/asana_tools.py; the streaming user interface from streamlit_app.py.
The loop body itself (graph/workflow.py, imported by streamlit_app.py) is
not part of the source tree, so it is modelled from the specification, as
marked on each such definition.
-/

set_option autoImplicit false

namespace SupervisorSpec

/-! ### Decision schema (agents/supervisor_agent.py, streaming_poc.py) -/

/-- The three delegation targets accepted by the validation in
streaming_poc.py (test_streaming_structured_output) and named by
SupervisorDecision.delegate_to in agents/supervisor_agent.py. -/
def validTargets : List String := ["web_research", "task_management", "email_draft"]

/-- Structured output of the decision oracle: SupervisorDecision in
streaming_poc.py (messages, delegate_to, reasoning, final_response). -/
structure SupervisorDecision where
  messages : Option String
  delegate_to : Option String
  reasoning : String
  final_response : Bool
deriving Repr, DecidableEq

/-- A non-empty optional text field (Python truthiness of an Optional str). -/
def msgNonempty : Option String → Bool
  | some m => m != ""
  | none => false

/-- Final shape of the decision invariant: final_response set, a non-empty
message, no delegation target. -/
def isFinalShape (d : SupervisorDecision) : Bool :=
  d.final_response && msgNonempty d.messages && (d.delegate_to == none)

/-- Delegation shape of the decision invariant: final_response unset, a
valid delegation target, no message. -/
def isDelegateShape (d : SupervisorDecision) : Bool :=
  !d.final_response
    && (match d.delegate_to with
        | some t => validTargets.contains t
        | none => false)
    && (d.messages == none)

/-- Exactly one of the two decision shapes holds. -/
def exactlyOneShape (d : SupervisorDecision) : Bool :=
  (isFinalShape d && !isDelegateShape d) || (!isFinalShape d && isDelegateShape d)

/-- The validation applied to an oracle decision, as asserted over decisions
in streaming_poc.py: a decision is accepted when it has one of the two
shapes. -/
def validateDecision (d : SupervisorDecision) : Bool :=
  isFinalShape d || isDelegateShape d

/-! ### Supervisor loop state.

Modelled from the spec: graph/workflow.py, which implements the loop that
streamlit_app.py imports, is not in the source tree; WorkflowState and the
loop below follow sections 3, 4.1, 4.2 and 7 of the specification. -/

/-- Modelled from the spec: a shared-state entry is a text tagged by the
originating worker. -/
structure SharedStateEntry where
  origin : String
  content : String
deriving Repr, DecidableEq

/-- Modelled from the spec: the mutable aggregate threaded through the loop
(request fields omitted; they are opaque to the loop). -/
structure WorkflowState where
  shared_state : List SharedStateEntry
  iteration_count : Nat
  workflow_complete : Bool
  final_response : Option String
deriving Repr, DecidableEq

/-- The kind of instruction attached to one raw oracle call: the normal
per-iteration prompt, the corrective retry after a malformed decision, or
the forced finalize prompt at the iteration cap. -/
inductive Instr where
  | normal
  | corrective
  | forcedFinalize
deriving Repr, DecidableEq

/-- Outcome of one raw oracle call: a transient or parse failure, or a
decision (possibly violating the invariant). -/
inductive OracleResult where
  | failure
  | ok (d : SupervisorDecision)
deriving Repr, DecidableEq

/-- Outcome of one worker invocation: a result text, or a raised exception
carrying a reason. -/
inductive WorkerResult where
  | success (text : String)
  | failure (reason : String)
deriving Repr, DecidableEq

/-- The decision oracle as consumed by the loop: the result of the raw call
with a given index and instruction kind. -/
def Oracle : Type := Nat → Instr → OracleResult

/-- The three workers as consumed by the loop: the result of invoking the
named target during a given iteration. -/
def Workers : Type := Nat → String → WorkerResult

/-- Loop bookkeeping around the workflow state: the instruction of every
raw oracle call so far, the number of oracle consultations, the number of
delegations, and every decision that reached the dispatch step after
validation or fallback. -/
structure LoopSt where
  ws : WorkflowState
  calls : List Instr
  consults : Nat
  delegations : Nat
  dispatched : List SupervisorDecision
deriving Repr, DecidableEq

/-- Modelled from the spec: the hard iteration cap of the loop (20 in the
reference design, echoed by SUPERVISOR_SYSTEM_PROMPT in
agents/supervisor_agent.py). -/
def cap : Nat := 20

/-- Modelled from the spec: the generic apology used when no reasoning text
is available for a best-effort final message. -/
def genericApology : String :=
  "I was unable to produce a complete answer to your request."

/-- Modelled from the spec: best-effort final message built from the
reasoning text of a malformed decision, or the generic apology when no
reasoning is present. -/
def bestEffortMessage (reasoning : String) : String :=
  if reasoning = "" then genericApology else reasoning

/-- Modelled from the spec: the fallback that treats a malformed decision as
a finalization with a best-effort message. -/
def fallbackFinalize (reasoning : String) : SupervisorDecision :=
  { messages := some (bestEffortMessage reasoning),
    delegate_to := none,
    reasoning := reasoning,
    final_response := true }

/-- The reasoning text carried by a raw oracle outcome (empty on failure). -/
def reasoningOf : OracleResult → String
  | .failure => ""
  | .ok d => d.reasoning

/-- A raw oracle outcome reduced to a decision passing validation, when it
is one. -/
def firstValid : OracleResult → Option SupervisorDecision
  | .failure => none
  | .ok d => if validateDecision d then some d else none

/-- Modelled from the spec: one oracle consultation of the per-iteration
algorithm: the normal call, then on validation or parse failure exactly one
corrective retry, then the fallback finalization. Returns the decision that
reaches dispatch and the instructions of the raw calls used. -/
def consult (oracle : Oracle) (idx : Nat) : SupervisorDecision × List Instr :=
  match firstValid (oracle idx .normal) with
  | some d => (d, [.normal])
  | none =>
    match firstValid (oracle (idx + 1) .corrective) with
    | some d => (d, [.normal, .corrective])
    | none =>
      (fallbackFinalize (reasoningOf (oracle (idx + 1) .corrective)),
       [.normal, .corrective])

/-- Modelled from the spec: the shared-state entry appended for a
delegation: the worker text on success, an origin-tagged failure note when
the worker raises. -/
def workerEntry (target : String) : WorkerResult → SharedStateEntry
  | .success t => { origin := target, content := t }
  | .failure r => { origin := target, content := "failed: " ++ r }

/-- One shared-state entry rendered for the degraded summary. -/
def renderEntry (e : SharedStateEntry) : String :=
  e.origin ++ ": " ++ e.content

/-- Modelled from the spec: the degraded best-effort summary at cap
exhaustion: the concatenated shared-state entries, or the generic apology
when there are none. -/
def degradedSummary (ss : List SharedStateEntry) : String :=
  if String.intercalate "\n" (ss.map renderEntry) = "" then genericApology
  else String.intercalate "\n" (ss.map renderEntry)

/-- Modelled from the spec: the decision used at cap exhaustion: the forced
oracle call when it produces a valid final decision, else a finalization
from the concatenated shared state. -/
def forcedDecision (ss : List SharedStateEntry) (r : OracleResult) : SupervisorDecision :=
  match firstValid r with
  | some d =>
    if d.final_response then d
    else
      { messages := some (degradedSummary ss), delegate_to := none,
        reasoning := d.reasoning, final_response := true }
  | none =>
    { messages := some (degradedSummary ss), delegate_to := none,
      reasoning := reasoningOf r, final_response := true }

/-- Modelled from the spec: the loop transition finalizing on a valid (or
fallback) final decision: the message becomes the final response and the
workflow completes. -/
def finalizeStep (s : LoopSt) (d : SupervisorDecision) (used : List Instr) : LoopSt :=
  { ws :=
      { s.ws with
        iteration_count := s.ws.iteration_count + 1,
        workflow_complete := true, final_response := d.messages },
    calls := s.calls ++ used,
    consults := s.consults + 1,
    delegations := s.delegations,
    dispatched := s.dispatched ++ [d] }

/-- Modelled from the spec: the loop transition delegating to the named
worker: the worker is invoked, its entry appended to the shared state, and
the iteration charged. -/
def delegateStep (workers : Workers) (s : LoopSt) (d : SupervisorDecision)
    (used : List Instr) : LoopSt :=
  let target := d.delegate_to.getD ""
  let entry := workerEntry target (workers (s.ws.iteration_count + 1) target)
  { ws :=
      { s.ws with
        iteration_count := s.ws.iteration_count + 1,
        shared_state := s.ws.shared_state ++ [entry] },
    calls := s.calls ++ used,
    consults := s.consults + 1,
    delegations := s.delegations + 1,
    dispatched := s.dispatched ++ [d] }

/-- Modelled from the spec: the forced synthesis at cap exhaustion: one
oracle call with the explicit finalize instruction, degrading to the
shared-state summary when it fails. -/
def forcedStep (oracle : Oracle) (s : LoopSt) : LoopSt :=
  let d := forcedDecision s.ws.shared_state (oracle s.calls.length .forcedFinalize)
  { ws := { s.ws with workflow_complete := true, final_response := d.messages },
    calls := s.calls ++ [.forcedFinalize],
    consults := s.consults + 1,
    delegations := s.delegations,
    dispatched := s.dispatched ++ [d] }

/-- Modelled from the spec: one iteration of the supervisor loop below the
cap: consult the oracle (with retry and fallback) and either finalize or
delegate. -/
def normalStep (oracle : Oracle) (workers : Workers) (s : LoopSt) : LoopSt :=
  let c := consult oracle s.calls.length
  if c.1.final_response then finalizeStep s c.1 c.2
  else delegateStep workers s c.1 c.2

/-- Modelled from the spec: one step of the loop: completed states are
left unchanged, states at the cap force synthesis, all others run a normal
iteration. -/
def stepIter (oracle : Oracle) (workers : Workers) (s : LoopSt) : LoopSt :=
  if s.ws.workflow_complete then s
  else if cap ≤ s.ws.iteration_count then forcedStep oracle s
  else normalStep oracle workers s

/-- Modelled from the spec: the loop state at request start:
iteration_count 0, workflow_complete false, empty shared state. -/
def initSt : LoopSt :=
  { ws :=
      { shared_state := [], iteration_count := 0,
        workflow_complete := false, final_response := none },
    calls := [], consults := 0, delegations := 0, dispatched := [] }

/-- The loop state after at most k iterations. -/
def runSteps (oracle : Oracle) (workers : Workers) : Nat → LoopSt
  | 0 => initSt
  | k + 1 => stepIter oracle workers (runSteps oracle workers k)

/-- Modelled from the spec: the whole run of the supervisor loop on one
request: cap + 1 steps always suffice to reach completion. -/
def runLoop (oracle : Oracle) (workers : Workers) : LoopSt :=
  runSteps oracle workers (cap + 1)

/-- The loop invariant: shared-state length counts delegations, delegations
never exceed the iteration count, the count never exceeds the cap, oracle
consultations track the count, every dispatched decision has exactly one of
the two shapes, and completion carries a non-empty final response. -/
def Inv (s : LoopSt) : Prop :=
  s.ws.shared_state.length = s.delegations ∧
  s.delegations ≤ s.ws.iteration_count ∧
  s.ws.iteration_count ≤ cap ∧
  s.consults ≤ s.ws.iteration_count + 1 ∧
  (s.ws.workflow_complete = false → s.consults = s.ws.iteration_count) ∧
  (∀ d ∈ s.dispatched, exactlyOneShape d = true) ∧
  (s.ws.workflow_complete = true → ∃ m, s.ws.final_response = some m ∧ m ≠ "")

/-! ### Streaming user interface (streamlit_app.py, stream_supervisor_response).

The chunk loop of stream_supervisor_response iterates over (node_name,
node_output) pairs; the three placeholders are modelled as lists of the
markdown texts written to them, and full_response as the running primary
content. -/

/-- One node output observed by the chunk loop of streamlit_app.py
(the dict keys read by stream_supervisor_response; shared_state is [] when
the key is absent, mirroring a falsy .get). -/
structure NodeOutput where
  supervisor_reasoning : Option String
  delegate_to : Option String
  iteration_count : Nat
  workflow_complete : Bool
  final_response : Option String
  shared_state : List String
deriving Repr, DecidableEq

/-- Python truthiness of an optional string as read by .get on the node
output dicts. -/
def truthyStr : Option String → Bool
  | some s => s != ""
  | none => false

/-- The current_delegation dict built by stream_supervisor_response. -/
structure DelegationInfo where
  reasoning : String
  delegate_to : Option String
  iteration : Nat
  workflow_complete : Bool
deriving Repr, DecidableEq

/-- agent_map of format_delegation_info in streamlit_app.py. -/
def agentMap : List (String × String) :=
  [("web_research", "🔍 Web Research Agent"),
   ("task_management", "📋 Task Management Agent"),
   ("email_draft", "✉️ Email Draft Agent")]

/-- format_delegation_info of streamlit_app.py (the empty-dict early return
cannot arise here because the loop always passes a fully built record). -/
def formatDelegationInfo (d : DelegationInfo) : String :=
  let iteration_badge :=
    "<span class=\"iteration-badge\">Iteration " ++ toString d.iteration ++ "</span>"
  let status :=
    if d.workflow_complete then
      "🎯 **Workflow Complete** - Supervisor providing final response"
    else if truthyStr d.delegate_to then
      let t := d.delegate_to.getD ""
      "🚀 **Delegating to:** " ++ (((agentMap.find? (fun p => p.1 == t)).map Prod.snd).getD t)
    else "🤔 **Analyzing request...**"
  "\n    <div class=\"delegation-info\">\n        " ++ iteration_badge
    ++ "\n        <br><br>\n        " ++ status
    ++ "\n        <br><br>\n        <strong>Reasoning:</strong> " ++ d.reasoning
    ++ "\n    </div>\n    "

/-- format_shared_state of streamlit_app.py. -/
def formatSharedState (shared_state : List String) : String :=
  if shared_state.isEmpty then ""
  else
    let items_html := String.join (shared_state.map (fun item =>
      let agent_type :=
        if item.startsWith "Web Research:" then "🔍 Web Research"
        else if item.startsWith "Task Management" then "📋 Task Management"
        else if item.startsWith "Email Draft:" then "✉️ Email Draft"
        else "Unknown"
      "\n        <div class=\"shared-state-item\">\n            <span class=\"agent-badge\">"
        ++ agent_type ++ "</span>\n            " ++ item ++ "\n        </div>\n        "))
    "\n    <div style=\"margin-top: 1rem;\">\n        <strong>🔗 Shared State (Agent Communication):</strong>\n        "
      ++ items_html ++ "\n    </div>\n    "

/-- The user-visible surfaces of stream_supervisor_response: the running
full_response and, per placeholder, the list of markdown texts written to
it (responseUpdates is the primary content stream; delegationUpdates and
sharedStateUpdates are the out-of-band status surfaces). -/
structure StreamUI where
  full_response : String
  responseUpdates : List String
  delegationUpdates : List String
  sharedStateUpdates : List String
deriving Repr, DecidableEq

/-- The surfaces before any chunk arrives (full_response starts ""). -/
def initUI : StreamUI :=
  { full_response := "", responseUpdates := [],
    delegationUpdates := [], sharedStateUpdates := [] }

/-- The body of the chunk loop of stream_supervisor_response for one
(node_name, node_output) pair. -/
def stepChunk (ui : StreamUI) (p : String × NodeOutput) : StreamUI :=
  if p.1 == "supervisor_node" then
    let out := p.2
    let ui1 :=
      if truthyStr out.supervisor_reasoning then
        { ui with delegationUpdates := ui.delegationUpdates ++
            [formatDelegationInfo
              { reasoning := out.supervisor_reasoning.getD "",
                delegate_to := out.delegate_to,
                iteration := out.iteration_count,
                workflow_complete := out.workflow_complete }] }
      else ui
    if truthyStr out.final_response then
      { ui1 with
        full_response := out.final_response.getD "",
        responseUpdates := ui1.responseUpdates ++
          ["**Final Response:**\n\n" ++ out.final_response.getD ""] }
    else ui1
  else if p.1 == "web_research_node" || p.1 == "task_management_node"
      || p.1 == "email_draft_node" then
    if p.2.shared_state.isEmpty then ui
    else
      { ui with sharedStateUpdates := ui.sharedStateUpdates ++
          [formatSharedState p.2.shared_state] }
  else ui

/-- The whole chunk loop of stream_supervisor_response over a flattened
sequence of (node_name, node_output) pairs. -/
def processStream : StreamUI → List (String × NodeOutput) → StreamUI
  | ui, [] => ui
  | ui, p :: rest => processStream (stepChunk ui p) rest

/-- A node output with the supervisor-internal fields (reasoning and
delegation target) erased, used to state that the primary content stream
does not depend on them. -/
def scrubNodeOutput (out : NodeOutput) : NodeOutput :=
  { out with supervisor_reasoning := none, delegate_to := none }

/-- scrubNodeOutput applied to the output of one pair. -/
def scrubPair (p : String × NodeOutput) : String × NodeOutput :=
  (p.1, scrubNodeOutput p.2)

/-! ### Worker tool functions (agents/email_draft_agent.py,
tools/asana_tools.py).

Python control flow is embedded explicitly: a function body that can raise
returns Except PyErr; try/except Exception is pyTry; the wrapped external
SDK call (create_email_draft_tool, list_email_drafts_tool, the Asana
workspaces API) is a parameter supplying the outcome of that call. -/

/-- A raised Python exception as observed by an except clause. -/
inductive PyErr where
  | valueError (msg : String)
  | exception (msg : String)
deriving Repr, DecidableEq

/-- str(e) for a caught exception. -/
def pyErrMsg : PyErr → String
  | .valueError m => m
  | .exception m => m

/-- A Python computation that either returns or raises. -/
abbrev PyResult (α : Type) := Except PyErr α

/-- A Python value as stored in the returned dicts. -/
inductive PyVal where
  | pyStr (s : String)
  | pyBool (b : Bool)
  | pyNat (n : Nat)
  | pyNone
  | pyList (l : List PyVal)
  | pyDict (d : List (String × PyVal))

/-- A Python dict with string keys, in insertion order. -/
abbrev Dict := List (String × PyVal)

/-- d.get(k): the value at the first occurrence of the key. -/
def assocLookup (d : Dict) (k : String) : Option PyVal :=
  (d.find? (fun p => p.1 == k)).map Prod.snd

/-- Python truthiness of a value read with .get. -/
def pyTruthy : Option PyVal → Bool
  | some (.pyStr s) => s != ""
  | some (.pyBool b) => b
  | some (.pyNat n) => n != 0
  | some .pyNone => false
  | some (.pyList l) => !l.isEmpty
  | some (.pyDict d) => !d.isEmpty
  | none => false

/-- try: body ... except Exception as e: return handler(e). -/
def pyTry (body : PyResult Dict) (handler : PyErr → Dict) : PyResult Dict :=
  match body with
  | .ok d => .ok d
  | .error e => .ok (handler e)

/-- The characters removed by Python str.strip() with no argument (ASCII
whitespace; exotic Unicode spaces are out of scope). -/
def isPySpace (c : Char) : Bool :=
  c == ' ' || c == '\t' || c == '\n' || c == '\r' || c == '\x0B' || c == '\x0C'

/-- Python str.strip(). -/
def pyStrip (s : String) : String :=
  ⟨((s.data.dropWhile isPySpace).reverse.dropWhile isPySpace).reverse⟩

/-- Python str.title(): the first cased character of every run of letters
is uppercased, the rest lowercased. -/
def pyTitleAux : Bool → List Char → List Char
  | _, [] => []
  | prevCased, c :: cs =>
    (if c.isAlpha then (if prevCased then c.toLower else c.toUpper) else c)
      :: pyTitleAux c.isAlpha cs

/-- Python str.title() on a string. -/
def pyTitle (s : String) : String := ⟨pyTitleAux false s.data⟩

/-- Python str.split for the one-character separator used by
create_gmail_draft: every comma splits and empty pieces are kept. -/
def pySplitCommaAux : List Char → List Char → List (List Char)
  | [], acc => [acc.reverse]
  | c :: cs, acc =>
    if c == ',' then acc.reverse :: pySplitCommaAux cs []
    else pySplitCommaAux cs (c :: acc)

/-- Python s.split for the comma separator, on strings. -/
def pySplitComma (s : String) : List String :=
  (pySplitCommaAux s.data []).map (fun l => ⟨l⟩)

/-- The arguments create_email_draft_tool receives from the email tools. -/
structure GmailDraftArgs where
  «to» : List String
  subject : String
  body : String
  cc : Option (List String)
  bcc : Option (List String)
deriving Repr, DecidableEq

/-- The except-clause dict of create_gmail_draft. -/
def gmailCreateFailDict (recipient_email subject : String) (e : PyErr) : Dict :=
  [("success", PyVal.pyBool false), ("error", PyVal.pyStr (pyErrMsg e)),
   ("recipient", PyVal.pyStr recipient_email), ("subject", PyVal.pyStr subject)]

/-- The guarded comprehension of create_gmail_draft for cc/bcc: an absent
or empty (falsy) string gives the empty list, otherwise the string is split
on commas, each piece stripped, and empty pieces dropped. -/
def parseEmailList : Option String → List String
  | some s =>
    if s == "" then []
    else ((pySplitComma s).map pyStrip).filter (fun e => e != "")
  | none => []

/-- create_gmail_draft of agents/email_draft_agent.py: parse the recipient
and the comma-separated cc/bcc strings, call create_email_draft_tool (the
parameter ext), and on any exception return the failure dict. -/
def create_gmail_draft (ext : GmailDraftArgs → PyResult Dict)
    (recipient_email subject body : String)
    (cc_emails bcc_emails : Option String) : PyResult Dict :=
  pyTry
    (let to_list := [pyStrip recipient_email]
     let cc_list := parseEmailList cc_emails
     let bcc_list := parseEmailList bcc_emails
     ext { «to» := to_list, subject := subject, body := body,
           cc := if cc_list.isEmpty then none else some cc_list,
           bcc := if bcc_list.isEmpty then none else some bcc_list })
    (gmailCreateFailDict recipient_email subject)

/-- The except-clause dict of list_gmail_drafts. -/
def gmailListFailDict (e : PyErr) : Dict :=
  [("success", PyVal.pyBool false), ("error", PyVal.pyStr (pyErrMsg e)),
   ("drafts", PyVal.pyList []), ("count", PyVal.pyNat 0)]

/-- list_gmail_drafts of agents/email_draft_agent.py: call
list_email_drafts_tool (the parameter ext) with max_results, returning the
failure dict on any exception. -/
def list_gmail_drafts (ext : Nat → PyResult Dict) (max_results : Nat) : PyResult Dict :=
  pyTry (ext max_results) gmailListFailDict

/-- The except-clause dict of draft_research_based_email. -/
def draftFailDict (recipient_email subject purpose : String) (e : PyErr) : Dict :=
  [("success", PyVal.pyBool false), ("error", PyVal.pyStr (pyErrMsg e)),
   ("recipient", PyVal.pyStr recipient_email), ("subject", PyVal.pyStr subject),
   ("purpose", PyVal.pyStr purpose)]

/-- Python dict item assignment d[k] = v: overwrite in place, else append. -/
def dictSet (d : Dict) (k : String) (v : PyVal) : Dict :=
  if d.any (fun p => p.1 == k) then d.map (fun p => if p.1 == k then (k, v) else p)
  else d ++ [(k, v)]

/-- draft_research_based_email of agents/email_draft_agent.py: build the
email body from the tone, purpose and optional research context, call
create_email_draft_tool (the parameter ext), annotate a successful result
with email_structure, and on any exception return the failure dict. -/
def draft_research_based_email (ext : GmailDraftArgs → PyResult Dict)
    (recipient_email subject purpose : String)
    (research_context key_findings : Option String)
    (tone : String) : PyResult Dict :=
  pyTry
    (let greeting :=
       if tone.toLower == "friendly" || tone.toLower == "casual" then
         (if recipient_email.contains ',' then "Hello" else "Hi")
       else "Dear"
     let recipient_name := pyTitle (((recipient_email.splitOn "@").headD "").replace "." " ")
     let body_parts := [greeting ++ " " ++ recipient_name ++ ",", ""]
     let body_parts := body_parts ++
       ["I hope this email finds you well. I\x27m writing to " ++ purpose.toLower ++ ".", ""]
     let body_parts := body_parts ++
       (match research_context with
        | some rc =>
          if rc == "" then []
          else ["Based on recent research and analysis:", "", rc, ""]
        | none => [])
     let body_parts := body_parts ++
       (match key_findings with
        | some kf =>
          if kf == "" then []
          else ["Key insights from our research include:", "", kf, ""]
        | none => [])
     let body_parts := body_parts ++
       ["I would appreciate the opportunity to discuss this further with you. Please let me know if you have any questions or would like to schedule a time to connect.", ""]
     let body_parts := body_parts ++
       [(if tone.toLower == "friendly" || tone.toLower == "casual" then "Best regards,"
         else "Sincerely,"), "", "[Your Name]"]
     let email_body := String.intercalate "\n" body_parts
     match ext { «to» := [recipient_email], subject := subject, body := email_body,
                 cc := none, bcc := none } with
     | .error e => .error e
     | .ok result =>
       .ok (if pyTruthy (assocLookup result "success") then
              dictSet result "email_structure" (PyVal.pyDict
                [("recipient", PyVal.pyStr recipient_email),
                 ("subject", PyVal.pyStr subject),
                 ("purpose", PyVal.pyStr purpose),
                 ("tone", PyVal.pyStr tone),
                 ("research_integrated", PyVal.pyBool (truthyStr research_context)),
                 ("findings_included", PyVal.pyBool (truthyStr key_findings)),
                 ("body_length", PyVal.pyNat email_body.length)])
            else result))
    (draftFailDict recipient_email subject purpose)

/-- One workspace object returned by the Asana workspaces API (each field
read with .get, which can be absent). -/
structure AsanaWorkspace where
  gid : Option String
  name : Option String
  resource_type : Option String
deriving Repr, DecidableEq

/-- An optional field rendered into the returned dict. -/
def optStrVal : Option String → PyVal
  | some s => PyVal.pyStr s
  | none => PyVal.pyNone

/-- The except-clause dict of get_workspace_info_tool. -/
def asanaFailDict (e : PyErr) : Dict :=
  [("success", PyVal.pyBool false), ("error", PyVal.pyStr (pyErrMsg e)),
   ("workspaces", PyVal.pyList []), ("count", PyVal.pyNat 0)]

/-- get_workspace_info_tool of tools/asana_tools.py: the blank-key
ValueError is raised BEFORE the try block (so it propagates to the caller);
inside the try the workspaces call (the parameter ext) is wrapped and any
exception becomes the failure dict. The identical blank-key check inside
_create_asana_client is unreachable here because the outer check already
raised. -/
def get_workspace_info_tool (api_key : String)
    (ext : PyResult (List AsanaWorkspace)) : PyResult Dict :=
  if api_key == "" || pyStrip api_key == "" then
    Except.error (PyErr.valueError "Asana API key is required")
  else
    pyTry
      (match ext with
       | .error e => .error e
       | .ok workspaces =>
         let workspace_list := workspaces.map (fun w => PyVal.pyDict
           [("gid", optStrVal w.gid), ("name", optStrVal w.name),
            ("resource_type", optStrVal w.resource_type)])
         .ok [("success", PyVal.pyBool true),
              ("workspaces", PyVal.pyList workspace_list),
              ("count", PyVal.pyNat workspace_list.length)])
      asanaFailDict

/-- The worker tool result carries success False and an error string. -/
def returnsErrorDict (r : PyResult Dict) : Prop :=
  ∃ d, r = Except.ok d ∧ assocLookup d "success" = some (PyVal.pyBool false) ∧
    ∃ msg, assocLookup d "error" = some (PyVal.pyStr msg)

/-! ### Agent factory functions (agents/supervisor_agent.py,
agents/email_draft_agent.py). Only identity matters to the claims: both
factories return the module-level agent object unchanged, so the agent is
modelled by its configuration record and the prompts are abridged to their
opening sentences. -/

/-- A configured pydantic-ai agent (the fields relevant to identity). -/
structure Agent where
  deps_type : String
  system_prompt : String
deriving Repr, DecidableEq

/-- Opening of SUPERVISOR_SYSTEM_PROMPT in agents/supervisor_agent.py (the
remaining prompt text plays no role in any claim). -/
def SUPERVISOR_SYSTEM_PROMPT : String :=
  "You are an intelligent supervisor agent coordinating web research, task management, and email drafting agents in a sophisticated multi-agent workflow."

/-- The module-level supervisor agent object. -/
def supervisor_agent : Agent :=
  { deps_type := "SupervisorAgentDependencies",
    system_prompt := SUPERVISOR_SYSTEM_PROMPT }

/-- create_supervisor_agent of agents/supervisor_agent.py: returns the
module-level agent regardless of session_id. -/
def create_supervisor_agent (session_id : Option String) : Agent :=
  supervisor_agent

/-- Opening of SYSTEM_PROMPT in agents/email_draft_agent.py. -/
def EMAIL_SYSTEM_PROMPT : String :=
  "You are an expert email writer and communication specialist."

/-- The module-level email draft agent object. -/
def email_draft_agent : Agent :=
  { deps_type := "EmailDraftAgentDependencies",
    system_prompt := EMAIL_SYSTEM_PROMPT }

/-- create_email_draft_agent of agents/email_draft_agent.py: returns the
module-level agent regardless of all three arguments. -/
def create_email_draft_agent (gmail_credentials_path gmail_token_path : String)
    (session_id : Option String) : Agent :=
  email_draft_agent

/-- Claim-side characterization of the cc/bcc transformation of
create_gmail_draft: split on commas, strip each piece, drop the empty
pieces, and pass None through when nothing non-empty remains. -/
def ccListSpec : Option String → Option (List String)
  | none => none
  | some s =>
    if (((pySplitComma s).map pyStrip).filter (fun e => e != "")).isEmpty then none
    else some (((pySplitComma s).map pyStrip).filter (fun e => e != ""))

/-! ### Concrete instruments used by the witnesses. -/

/-- A valid final decision. -/
def decisionFinal0 : SupervisorDecision :=
  { messages := some "Machine learning is a branch of artificial intelligence.",
    delegate_to := none, reasoning := "General knowledge question.",
    final_response := true }

/-- A valid delegation decision. -/
def decisionDelegate0 : SupervisorDecision :=
  { messages := none, delegate_to := some "web_research",
    reasoning := "Current information is required.", final_response := false }

/-- An oracle that always finalizes. -/
def oracleFinal0 : Oracle := fun _ _ => OracleResult.ok decisionFinal0

/-- An oracle that always delegates. -/
def oracleDelegate0 : Oracle := fun _ _ => OracleResult.ok decisionDelegate0

/-- An oracle whose every response fails to parse. -/
def oracleBad0 : Oracle := fun _ _ => OracleResult.failure

/-- Workers that always succeed. -/
def workersOk0 : Workers := fun _ _ => WorkerResult.success "Search results summarized."

/-- Workers that always raise. -/
def workersFail0 : Workers := fun _ _ => WorkerResult.failure "network timeout"

theorem msgNonempty_iff (o : Option String) :
    msgNonempty o = true ↔ ∃ m, o = some m ∧ m ≠ "" := by
  cases o <;> simp [msgNonempty]

theorem isDelegateShape_false_of_final {d : SupervisorDecision}
    (h : d.final_response = true) : isDelegateShape d = false := by
  simp [isDelegateShape, h]

theorem isFinalShape_false_of_not_final {d : SupervisorDecision}
    (h : d.final_response = false) : isFinalShape d = false := by
  simp [isFinalShape, h]

theorem final_of_isFinalShape {d : SupervisorDecision} (h : isFinalShape d = true) :
    d.final_response = true ∧ (∃ m, d.messages = some m ∧ m ≠ "") ∧
      d.delegate_to = none := by
  simp only [isFinalShape, Bool.and_eq_true, beq_iff_eq] at h
  exact ⟨h.1.1, (msgNonempty_iff _).mp h.1.2, h.2⟩

theorem exactlyOneShape_of_validate {d : SupervisorDecision}
    (h : validateDecision d = true) : exactlyOneShape d = true := by
  cases hb : d.final_response with
  | false =>
    have h1 := isFinalShape_false_of_not_final hb
    simp only [validateDecision, h1, Bool.false_or] at h
    simp [exactlyOneShape, h1, h]
  | true =>
    have h2 := isDelegateShape_false_of_final hb
    simp only [validateDecision, h2, Bool.or_false] at h
    simp [exactlyOneShape, h2, h]

theorem isFinalShape_of_shape_final {d : SupervisorDecision}
    (h : exactlyOneShape d = true) (hf : d.final_response = true) :
    isFinalShape d = true := by
  have hd := isDelegateShape_false_of_final hf
  simpa [exactlyOneShape, hd] using h

theorem exactlyOneShape_of_final {d : SupervisorDecision}
    (h : isFinalShape d = true) : exactlyOneShape d = true := by
  have hf : d.final_response = true := (final_of_isFinalShape h).1
  simp [exactlyOneShape, h, isDelegateShape_false_of_final hf]

theorem bestEffortMessage_ne (r : String) : bestEffortMessage r ≠ "" := by
  unfold bestEffortMessage
  split
  · decide
  · assumption

theorem isFinalShape_fallback (r : String) :
    isFinalShape (fallbackFinalize r) = true := by
  have h := bestEffortMessage_ne r
  simp [isFinalShape, fallbackFinalize, msgNonempty, h]

theorem degradedSummary_ne (ss : List SharedStateEntry) : degradedSummary ss ≠ "" := by
  unfold degradedSummary
  split
  · decide
  · assumption

theorem validate_of_firstValid {r : OracleResult} {d : SupervisorDecision}
    (h : firstValid r = some d) : validateDecision d = true := by
  cases r with
  | failure => exact absurd h (by simp [firstValid])
  | ok d0 =>
    simp only [firstValid] at h
    split at h
    next hv => cases h; exact hv
    next => cases h

theorem isFinalShape_forcedDecision (ss : List SharedStateEntry) (r : OracleResult) :
    isFinalShape (forcedDecision ss r) = true := by
  unfold forcedDecision
  cases h1 : firstValid r with
  | none => simp [isFinalShape, msgNonempty, degradedSummary_ne ss]
  | some d =>
    cases hf : d.final_response with
    | true =>
      simp only [hf, if_true]
      exact isFinalShape_of_shape_final
        (exactlyOneShape_of_validate (validate_of_firstValid h1)) hf
    | false =>
      simp [hf, isFinalShape, msgNonempty, degradedSummary_ne ss]

theorem consult_shape (oracle : Oracle) (idx : Nat) :
    exactlyOneShape (consult oracle idx).1 = true := by
  unfold consult
  cases h1 : firstValid (oracle idx .normal) with
  | some d => exact exactlyOneShape_of_validate (validate_of_firstValid h1)
  | none =>
    cases h2 : firstValid (oracle (idx + 1) .corrective) with
    | some d => exact exactlyOneShape_of_validate (validate_of_firstValid h2)
    | none => exact exactlyOneShape_of_final (isFinalShape_fallback _)

theorem inv_init : Inv initSt := by
  refine ⟨rfl, ?_, ?_, ?_, ?_, ?_, ?_⟩ <;> simp [initSt, cap]

@[simp] theorem forcedStep_shared (oracle : Oracle) (s : LoopSt) :
    (forcedStep oracle s).ws.shared_state = s.ws.shared_state := rfl

@[simp] theorem forcedStep_count (oracle : Oracle) (s : LoopSt) :
    (forcedStep oracle s).ws.iteration_count = s.ws.iteration_count := rfl

@[simp] theorem forcedStep_complete (oracle : Oracle) (s : LoopSt) :
    (forcedStep oracle s).ws.workflow_complete = true := rfl

@[simp] theorem forcedStep_final (oracle : Oracle) (s : LoopSt) :
    (forcedStep oracle s).ws.final_response
      = (forcedDecision s.ws.shared_state (oracle s.calls.length .forcedFinalize)).messages := rfl

@[simp] theorem forcedStep_calls (oracle : Oracle) (s : LoopSt) :
    (forcedStep oracle s).calls = s.calls ++ [.forcedFinalize] := rfl

@[simp] theorem forcedStep_consults (oracle : Oracle) (s : LoopSt) :
    (forcedStep oracle s).consults = s.consults + 1 := rfl

@[simp] theorem forcedStep_delegations (oracle : Oracle) (s : LoopSt) :
    (forcedStep oracle s).delegations = s.delegations := rfl

@[simp] theorem forcedStep_dispatched (oracle : Oracle) (s : LoopSt) :
    (forcedStep oracle s).dispatched = s.dispatched
      ++ [forcedDecision s.ws.shared_state (oracle s.calls.length .forcedFinalize)] := rfl

@[simp] theorem finalizeStep_shared (s : LoopSt) (d : SupervisorDecision) (used : List Instr) :
    (finalizeStep s d used).ws.shared_state = s.ws.shared_state := rfl

@[simp] theorem finalizeStep_count (s : LoopSt) (d : SupervisorDecision) (used : List Instr) :
    (finalizeStep s d used).ws.iteration_count = s.ws.iteration_count + 1 := rfl

@[simp] theorem finalizeStep_complete (s : LoopSt) (d : SupervisorDecision) (used : List Instr) :
    (finalizeStep s d used).ws.workflow_complete = true := rfl

@[simp] theorem finalizeStep_final (s : LoopSt) (d : SupervisorDecision) (used : List Instr) :
    (finalizeStep s d used).ws.final_response = d.messages := rfl

@[simp] theorem finalizeStep_calls (s : LoopSt) (d : SupervisorDecision) (used : List Instr) :
    (finalizeStep s d used).calls = s.calls ++ used := rfl

@[simp] theorem finalizeStep_consults (s : LoopSt) (d : SupervisorDecision) (used : List Instr) :
    (finalizeStep s d used).consults = s.consults + 1 := rfl

@[simp] theorem finalizeStep_delegations (s : LoopSt) (d : SupervisorDecision) (used : List Instr) :
    (finalizeStep s d used).delegations = s.delegations := rfl

@[simp] theorem finalizeStep_dispatched (s : LoopSt) (d : SupervisorDecision) (used : List Instr) :
    (finalizeStep s d used).dispatched = s.dispatched ++ [d] := rfl

@[simp] theorem delegateStep_shared (workers : Workers) (s : LoopSt)
    (d : SupervisorDecision) (used : List Instr) :
    (delegateStep workers s d used).ws.shared_state = s.ws.shared_state
      ++ [workerEntry (d.delegate_to.getD "")
            (workers (s.ws.iteration_count + 1) (d.delegate_to.getD ""))] := rfl

@[simp] theorem delegateStep_count (workers : Workers) (s : LoopSt)
    (d : SupervisorDecision) (used : List Instr) :
    (delegateStep workers s d used).ws.iteration_count = s.ws.iteration_count + 1 := rfl

@[simp] theorem delegateStep_complete (workers : Workers) (s : LoopSt)
    (d : SupervisorDecision) (used : List Instr) :
    (delegateStep workers s d used).ws.workflow_complete
      = s.ws.workflow_complete := rfl

@[simp] theorem delegateStep_final (workers : Workers) (s : LoopSt)
    (d : SupervisorDecision) (used : List Instr) :
    (delegateStep workers s d used).ws.final_response = s.ws.final_response := rfl

@[simp] theorem delegateStep_calls (workers : Workers) (s : LoopSt)
    (d : SupervisorDecision) (used : List Instr) :
    (delegateStep workers s d used).calls = s.calls ++ used := rfl

@[simp] theorem delegateStep_consults (workers : Workers) (s : LoopSt)
    (d : SupervisorDecision) (used : List Instr) :
    (delegateStep workers s d used).consults = s.consults + 1 := rfl

@[simp] theorem delegateStep_delegations (workers : Workers) (s : LoopSt)
    (d : SupervisorDecision) (used : List Instr) :
    (delegateStep workers s d used).delegations = s.delegations + 1 := rfl

@[simp] theorem delegateStep_dispatched (workers : Workers) (s : LoopSt)
    (d : SupervisorDecision) (used : List Instr) :
    (delegateStep workers s d used).dispatched = s.dispatched ++ [d] := rfl

theorem stepIter_forced_eq (oracle : Oracle) (workers : Workers) {s : LoopSt}
    (hc : s.ws.workflow_complete = false) (hcap : cap ≤ s.ws.iteration_count) :
    stepIter oracle workers s = forcedStep oracle s := by
  simp [stepIter, hc, hcap]

theorem stepIter_finalize_eq (oracle : Oracle) (workers : Workers) {s : LoopSt}
    (hc : s.ws.workflow_complete = false) (hcap : ¬ cap ≤ s.ws.iteration_count)
    (hf : (consult oracle s.calls.length).1.final_response = true) :
    stepIter oracle workers s
      = finalizeStep s (consult oracle s.calls.length).1
          (consult oracle s.calls.length).2 := by
  simp [stepIter, normalStep, hc, hcap, hf]

theorem stepIter_delegate_eq (oracle : Oracle) (workers : Workers) {s : LoopSt}
    (hc : s.ws.workflow_complete = false) (hcap : ¬ cap ≤ s.ws.iteration_count)
    (hf : (consult oracle s.calls.length).1.final_response = false) :
    stepIter oracle workers s
      = delegateStep workers s (consult oracle s.calls.length).1
          (consult oracle s.calls.length).2 := by
  simp [stepIter, normalStep, hc, hcap, hf]

theorem step_of_complete (oracle : Oracle) (workers : Workers) {s : LoopSt}
    (h : s.ws.workflow_complete = true) : stepIter oracle workers s = s := by
  simp [stepIter, h]

theorem inv_step (oracle : Oracle) (workers : Workers) {s : LoopSt} (h : Inv s) :
    Inv (stepIter oracle workers s) := by
  obtain ⟨h1, h2, h3, h4, h5, h6, h7⟩ := h
  by_cases hc : s.ws.workflow_complete = true
  · rw [step_of_complete oracle workers hc]
    exact ⟨h1, h2, h3, h4, h5, h6, h7⟩
  · have hc2 : s.ws.workflow_complete = false := by simpa using hc
    have hcons : s.consults = s.ws.iteration_count := h5 hc2
    by_cases hcap : cap ≤ s.ws.iteration_count
    · -- forced synthesis
      rw [stepIter_forced_eq oracle workers hc2 hcap]
      have hshape := isFinalShape_forcedDecision s.ws.shared_state
        (oracle s.calls.length .forcedFinalize)
      refine ⟨by simpa using h1, by simpa using h2, by simpa using h3,
        by simp; omega, by simp, ?_, ?_⟩
      · intro d hd
        simp only [forcedStep_dispatched, List.mem_append, List.mem_singleton] at hd
        rcases hd with hmem | hmem
        · exact h6 d hmem
        · subst hmem
          exact exactlyOneShape_of_final hshape
      · intro _
        simpa using (final_of_isFinalShape hshape).2.1
    · -- normal iteration
      have hlt : s.ws.iteration_count < cap := Nat.lt_of_not_le hcap
      have hshape := consult_shape oracle s.calls.length
      by_cases hf : (consult oracle s.calls.length).1.final_response = true
      · rw [stepIter_finalize_eq oracle workers hc2 hcap hf]
        refine ⟨by simpa using h1, by simp; omega, by simp; omega,
          by simp; omega, by simp, ?_, ?_⟩
        · intro d hd
          simp only [finalizeStep_dispatched, List.mem_append, List.mem_singleton] at hd
          rcases hd with hmem | hmem
          · exact h6 d hmem
          · subst hmem
            exact hshape
        · intro _
          simpa using (final_of_isFinalShape (isFinalShape_of_shape_final hshape hf)).2.1
      · have hf2 : (consult oracle s.calls.length).1.final_response = false := by
          simpa using hf
        rw [stepIter_delegate_eq oracle workers hc2 hcap hf2]
        refine ⟨by simp [h1], by simp; omega, by simp; omega,
          by simp; omega, by simp; omega, ?_, ?_⟩
        · intro d hd
          simp only [delegateStep_dispatched, List.mem_append, List.mem_singleton] at hd
          rcases hd with hmem | hmem
          · exact h6 d hmem
          · subst hmem
            exact hshape
        · intro hcomp
          simp only [delegateStep_complete] at hcomp
          exact absurd hcomp (by simp [hc2])

theorem inv_runSteps (oracle : Oracle) (workers : Workers) (k : Nat) :
    Inv (runSteps oracle workers k) := by
  induction k with
  | zero => exact inv_init
  | succ k ih => exact inv_step oracle workers ih

theorem step_progress (oracle : Oracle) (workers : Workers) {s : LoopSt}
    (h : (stepIter oracle workers s).ws.workflow_complete = false) :
    s.ws.workflow_complete = false ∧
      (stepIter oracle workers s).ws.iteration_count = s.ws.iteration_count + 1 := by
  by_cases hc : s.ws.workflow_complete = true
  · rw [step_of_complete oracle workers hc, hc] at h
    cases h
  · have hc2 : s.ws.workflow_complete = false := by simpa using hc
    refine ⟨hc2, ?_⟩
    by_cases hcap : cap ≤ s.ws.iteration_count
    · rw [stepIter_forced_eq oracle workers hc2 hcap] at h
      simp at h
    · by_cases hf : (consult oracle s.calls.length).1.final_response = true
      · rw [stepIter_finalize_eq oracle workers hc2 hcap hf] at h
        simp at h
      · have hf2 : (consult oracle s.calls.length).1.final_response = false := by
          simpa using hf
        rw [stepIter_delegate_eq oracle workers hc2 hcap hf2]
        simp

theorem step_shared_mono (oracle : Oracle) (workers : Workers) (s : LoopSt) :
    s.ws.shared_state <+: (stepIter oracle workers s).ws.shared_state := by
  by_cases hc : s.ws.workflow_complete = true
  · rw [step_of_complete oracle workers hc]
  · have hc2 : s.ws.workflow_complete = false := by simpa using hc
    by_cases hcap : cap ≤ s.ws.iteration_count
    · rw [stepIter_forced_eq oracle workers hc2 hcap]
      simp
    · by_cases hf : (consult oracle s.calls.length).1.final_response = true
      · rw [stepIter_finalize_eq oracle workers hc2 hcap hf]
        simp
      · have hf2 : (consult oracle s.calls.length).1.final_response = false := by
          simpa using hf
        rw [stepIter_delegate_eq oracle workers hc2 hcap hf2]
        simp

theorem runSteps_shared_mono (oracle : Oracle) (workers : Workers) {k j : Nat} (h : k ≤ j) :
    (runSteps oracle workers k).ws.shared_state
      <+: (runSteps oracle workers j).ws.shared_state := by
  induction j with
  | zero =>
    cases Nat.le_zero.mp h
    exact List.prefix_refl _
  | succ j ih =>
    rcases Nat.lt_or_ge k (j + 1) with hlt | hge
    · exact (ih (Nat.lt_succ_iff.mp hlt)).trans
        (step_shared_mono oracle workers (runSteps oracle workers j))
    · have : k = j + 1 := Nat.le_antisymm h hge
      subst this
      exact List.prefix_refl _

theorem runSteps_stable (oracle : Oracle) (workers : Workers) {k : Nat}
    (h : (runSteps oracle workers k).ws.workflow_complete = true) {j : Nat}
    (hkj : k ≤ j) : runSteps oracle workers j = runSteps oracle workers k := by
  induction j with
  | zero =>
    cases Nat.le_zero.mp hkj
    rfl
  | succ j ih =>
    rcases Nat.lt_or_ge k (j + 1) with hlt | hge
    · have hj := ih (Nat.lt_succ_iff.mp hlt)
      show stepIter oracle workers (runSteps oracle workers j) = _
      rw [hj, step_of_complete oracle workers h]
    · have : k = j + 1 := Nat.le_antisymm hkj hge
      subst this
      rfl

theorem runSteps_count (oracle : Oracle) (workers : Workers) :
    ∀ k, (runSteps oracle workers k).ws.workflow_complete = false →
      (runSteps oracle workers k).ws.iteration_count = k := by
  intro k
  induction k with
  | zero => intro _; rfl
  | succ k ih =>
    intro h
    obtain ⟨hprev, hinc⟩ := step_progress oracle workers h
    show (stepIter oracle workers (runSteps oracle workers k)).ws.iteration_count = k + 1
    rw [hinc, ih hprev]

theorem runLoop_complete (oracle : Oracle) (workers : Workers) :
    (runLoop oracle workers).ws.workflow_complete = true := by
  by_contra h
  have h' : (runSteps oracle workers (cap + 1)).ws.workflow_complete = false := by
    unfold runLoop at h
    simpa using h
  have hcount := runSteps_count oracle workers (cap + 1) h'
  have hle := (inv_runSteps oracle workers (cap + 1)).2.2.1
  omega

/-! ### Claim theorems for the supervisor loop. -/

/-- Claim C1: every SupervisorDecision that reaches the dispatch step of
the loop after validation or fallback satisfies exactly one of the two
shapes: final with a non-empty message and no target, or non-final with a
valid target and no message. -/
theorem supervisor_dispatch_shape_invariant (oracle : Oracle) (workers : Workers)
    (k : Nat) (d : SupervisorDecision)
    (hd : d ∈ (runSteps oracle workers k).dispatched) :
    exactlyOneShape d = true :=
  (inv_runSteps oracle workers k).2.2.2.2.2.1 d hd

/-- Witness for C1 at a concrete run: the decision dispatched during the
first iteration of a finalizing oracle. -/
theorem supervisor_dispatch_shape_invariant_witness :
    exactlyOneShape decisionFinal0 = true :=
  supervisor_dispatch_shape_invariant oracleFinal0 workersOk0 1 decisionFinal0 (by decide)

/-- Claim C2: for every oracle and every worker behavior the loop
completes, makes at most cap + 1 = 21 oracle consultations (at most 20
delegation iterations plus one forced synthesis), and performs at most
cap = 20 delegations, never a 21st; the bound holds for arbitrary oracles,
so it is enforced by the loop itself and not by the oracle. -/
theorem supervisor_loop_hard_cap (oracle : Oracle) (workers : Workers) :
    (runLoop oracle workers).ws.workflow_complete = true ∧
    (runLoop oracle workers).consults ≤ cap + 1 ∧
    (runLoop oracle workers).delegations ≤ cap := by
  obtain ⟨_, h2, h3, h4, _, _, _⟩ := inv_runSteps oracle workers (cap + 1)
  refine ⟨runLoop_complete oracle workers, ?_, ?_⟩
  · show (runSteps oracle workers (cap + 1)).consults ≤ cap + 1
    omega
  · show (runSteps oracle workers (cap + 1)).delegations ≤ cap
    omega

/-- Claim C3: after every iteration the shared-state length equals the
number of delegations (successful or failed) so far, and the shared state
after iteration k is a prefix of the shared state after any later
iteration, so no entry is ever removed, modified or reordered. -/
theorem shared_state_monotone (oracle : Oracle) (workers : Workers)
    (k j : Nat) (hkj : k ≤ j) :
    (runSteps oracle workers k).ws.shared_state.length
        = (runSteps oracle workers k).delegations ∧
    (runSteps oracle workers k).ws.shared_state
        <+: (runSteps oracle workers j).ws.shared_state :=
  ⟨(inv_runSteps oracle workers k).1, runSteps_shared_mono oracle workers hkj⟩

/-- Witness for C3 at a concrete run after one and two iterations of an
always-delegating oracle. -/
theorem shared_state_monotone_witness :
    1 ≤ 2 ∧
    ((runSteps oracleDelegate0 workersOk0 1).ws.shared_state.length
        = (runSteps oracleDelegate0 workersOk0 1).delegations ∧
      (runSteps oracleDelegate0 workersOk0 1).ws.shared_state
        <+: (runSteps oracleDelegate0 workersOk0 2).ws.shared_state) :=
  ⟨by decide, shared_state_monotone oracleDelegate0 workersOk0 1 2 (by decide)⟩

/-- Claim C4: when the oracle validly delegates and the invoked worker
raises, the loop appends exactly one shared-state entry tagged with the
origin and a failed-with-reason text, charges exactly one iteration (and
one consultation, the same as a successful delegation), and does not
complete: it continues to the next oracle decision. -/
theorem worker_failure_is_non_fatal (oracle : Oracle) (workers : Workers)
    (s : LoopSt) (d : SupervisorDecision) (t r : String)
    (hnc : s.ws.workflow_complete = false)
    (hcap : s.ws.iteration_count < cap)
    (hor : firstValid (oracle s.calls.length Instr.normal) = some d)
    (hdf : d.final_response = false)
    (hdt : d.delegate_to = some t)
    (hw : workers (s.ws.iteration_count + 1) t = WorkerResult.failure r) :
    (stepIter oracle workers s).ws.shared_state
        = s.ws.shared_state ++ [{ origin := t, content := "failed: " ++ r }] ∧
    (stepIter oracle workers s).ws.iteration_count = s.ws.iteration_count + 1 ∧
    (stepIter oracle workers s).ws.workflow_complete = false ∧
    (stepIter oracle workers s).consults = s.consults + 1 ∧
    (stepIter oracle workers s).delegations = s.delegations + 1 := by
  have hcons : consult oracle s.calls.length = (d, [Instr.normal]) := by
    unfold consult
    rw [hor]
  have hf2 : (consult oracle s.calls.length).1.final_response = false := by
    rw [hcons]
    exact hdf
  rw [stepIter_delegate_eq oracle workers hnc (by omega) hf2, hcons]
  simp [hdt, workerEntry, hw, hnc]

/-- Witness for C4: the first iteration of an always-delegating oracle with
a raising research worker. -/
theorem worker_failure_is_non_fatal_witness :
    (initSt.ws.workflow_complete = false ∧ initSt.ws.iteration_count < cap ∧
     firstValid (oracleDelegate0 initSt.calls.length Instr.normal)
        = some decisionDelegate0 ∧
     decisionDelegate0.final_response = false ∧
     decisionDelegate0.delegate_to = some "web_research" ∧
     workersFail0 (initSt.ws.iteration_count + 1) "web_research"
        = WorkerResult.failure "network timeout") ∧
    ((stepIter oracleDelegate0 workersFail0 initSt).ws.shared_state
        = initSt.ws.shared_state
          ++ [{ origin := "web_research", content := "failed: " ++ "network timeout" }] ∧
     (stepIter oracleDelegate0 workersFail0 initSt).ws.iteration_count
        = initSt.ws.iteration_count + 1 ∧
     (stepIter oracleDelegate0 workersFail0 initSt).ws.workflow_complete = false ∧
     (stepIter oracleDelegate0 workersFail0 initSt).consults = initSt.consults + 1 ∧
     (stepIter oracleDelegate0 workersFail0 initSt).delegations
        = initSt.delegations + 1) :=
  ⟨⟨by decide, by decide, by decide, by decide, by decide, by decide⟩,
   worker_failure_is_non_fatal oracleDelegate0 workersFail0 initSt decisionDelegate0
     "web_research" "network timeout" (by decide) (by decide) (by decide) (by decide)
     (by decide) (by decide)⟩

/-- Claim C5: when the normal oracle call of an iteration fails validation
or parsing, the loop retries exactly once with the corrective instruction
(the raw call trace grows by exactly [normal, corrective]); when the retry
also fails, the iteration finalizes with the best-effort message built
from the reasoning text of the retry (the generic apology when there is
none) instead of raising an error. -/
theorem oracle_failure_retried_once_then_fallback (oracle : Oracle)
    (workers : Workers) (s : LoopSt)
    (hnc : s.ws.workflow_complete = false)
    (hcap : s.ws.iteration_count < cap)
    (h1 : firstValid (oracle s.calls.length Instr.normal) = none) :
    (stepIter oracle workers s).calls
        = s.calls ++ [Instr.normal, Instr.corrective] ∧
    (firstValid (oracle (s.calls.length + 1) Instr.corrective) = none →
      (stepIter oracle workers s).ws.workflow_complete = true ∧
      (stepIter oracle workers s).ws.final_response
        = some (bestEffortMessage
            (reasoningOf (oracle (s.calls.length + 1) Instr.corrective)))) := by
  cases h2 : firstValid (oracle (s.calls.length + 1) Instr.corrective) with
  | some d =>
    have hcons : consult oracle s.calls.length
        = (d, [Instr.normal, Instr.corrective]) := by
      unfold consult
      rw [h1, h2]
    constructor
    · by_cases hf : (consult oracle s.calls.length).1.final_response = true
      · rw [stepIter_finalize_eq oracle workers hnc (by omega) hf, hcons]
        simp
      · have hf2 : (consult oracle s.calls.length).1.final_response = false := by
          simpa using hf
        rw [stepIter_delegate_eq oracle workers hnc (by omega) hf2, hcons]
        simp
    · intro hcontra
      cases hcontra
  | none =>
    have hcons : consult oracle s.calls.length
        = (fallbackFinalize
             (reasoningOf (oracle (s.calls.length + 1) Instr.corrective)),
           [Instr.normal, Instr.corrective]) := by
      unfold consult
      rw [h1, h2]
    have hf : (consult oracle s.calls.length).1.final_response = true := by
      rw [hcons]
      rfl
    rw [stepIter_finalize_eq oracle workers hnc (by omega) hf, hcons]
    exact ⟨by simp, fun _ => ⟨by simp, by simp [fallbackFinalize]⟩⟩

/-- Witness for C5: the first iteration against an oracle whose responses
never parse. -/
theorem oracle_failure_retried_once_then_fallback_witness :
    (initSt.ws.workflow_complete = false ∧ initSt.ws.iteration_count < cap ∧
     firstValid (oracleBad0 initSt.calls.length Instr.normal) = none) ∧
    ((stepIter oracleBad0 workersOk0 initSt).calls
        = initSt.calls ++ [Instr.normal, Instr.corrective] ∧
     (firstValid (oracleBad0 (initSt.calls.length + 1) Instr.corrective) = none →
       (stepIter oracleBad0 workersOk0 initSt).ws.workflow_complete = true ∧
       (stepIter oracleBad0 workersOk0 initSt).ws.final_response
          = some (bestEffortMessage
              (reasoningOf (oracleBad0 (initSt.calls.length + 1) Instr.corrective))))) :=
  ⟨⟨by decide, by decide, by decide⟩,
   oracle_failure_retried_once_then_fallback oracleBad0 workersOk0 initSt
     (by decide) (by decide) (by decide)⟩

/-- Claim C7: when the very first oracle decision is a valid finalization,
the run returns its message immediately: afterwards the shared state is
empty, iteration_count is 1, and exactly one oracle consultation was made. -/
theorem first_final_decision_returns_immediately (oracle : Oracle)
    (workers : Workers) (d : SupervisorDecision)
    (h1 : oracle 0 Instr.normal = OracleResult.ok d)
    (h2 : validateDecision d = true)
    (h3 : d.final_response = true) :
    (runLoop oracle workers).ws.final_response = d.messages ∧
    (runLoop oracle workers).ws.shared_state = [] ∧
    (runLoop oracle workers).ws.iteration_count = 1 ∧
    (runLoop oracle workers).consults = 1 ∧
    (runLoop oracle workers).ws.workflow_complete = true := by
  have hcons : consult oracle 0 = (d, [Instr.normal]) := by
    unfold consult
    rw [h1]
    simp [firstValid, h2]
  have hlen : initSt.calls.length = 0 := rfl
  have hf : (consult oracle initSt.calls.length).1.final_response = true := by
    rw [hlen, hcons]
    exact h3
  have hstep : runSteps oracle workers 1 = finalizeStep initSt d [Instr.normal] := by
    show stepIter oracle workers initSt = _
    rw [stepIter_finalize_eq oracle workers rfl (by decide) hf, hlen, hcons]
  have hcomp : (runSteps oracle workers 1).ws.workflow_complete = true := by
    rw [hstep]
    rfl
  have hstable : runSteps oracle workers (cap + 1) = runSteps oracle workers 1 :=
    runSteps_stable oracle workers hcomp (by omega)
  unfold runLoop
  rw [hstable, hstep]
  exact ⟨rfl, rfl, rfl, rfl, rfl⟩

/-- Witness for C7: a run whose oracle finalizes on its first call. -/
theorem first_final_decision_returns_immediately_witness :
    (oracleFinal0 0 Instr.normal = OracleResult.ok decisionFinal0 ∧
     validateDecision decisionFinal0 = true ∧
     decisionFinal0.final_response = true) ∧
    ((runLoop oracleFinal0 workersOk0).ws.final_response = decisionFinal0.messages ∧
     (runLoop oracleFinal0 workersOk0).ws.shared_state = [] ∧
     (runLoop oracleFinal0 workersOk0).ws.iteration_count = 1 ∧
     (runLoop oracleFinal0 workersOk0).consults = 1 ∧
     (runLoop oracleFinal0 workersOk0).ws.workflow_complete = true) :=
  ⟨⟨rfl, by decide, rfl⟩,
   first_final_decision_returns_immediately oracleFinal0 workersOk0 decisionFinal0
     rfl (by decide) rfl⟩

/-! ### Claim theorems for the streaming user interface, the agent
factories and the worker tools. -/

@[simp] theorem truthyStr_none : truthyStr none = false := rfl

theorem truthyStr_iff (o : Option String) :
    truthyStr o = true ↔ ∃ v, o = some v ∧ v ≠ "" := by
  cases o <;> simp [truthyStr]

theorem stepChunk_updates (ui : StreamUI) (p : String × NodeOutput) :
    ((stepChunk ui p).responseUpdates = ui.responseUpdates ∧
     (stepChunk ui p).full_response = ui.full_response) ∨
    (p.1 = "supervisor_node" ∧ ∃ v, p.2.final_response = some v ∧ v ≠ "" ∧
      (stepChunk ui p).responseUpdates
        = ui.responseUpdates ++ ["**Final Response:**\n\n" ++ v] ∧
      (stepChunk ui p).full_response = v) := by
  by_cases h1 : p.1 = "supervisor_node"
  · by_cases hf : truthyStr p.2.final_response = true
    · right
      obtain ⟨v, hv, hne⟩ := (truthyStr_iff _).mp hf
      have hv2 : truthyStr (some v) = true := by simp [truthyStr, hne]
      refine ⟨h1, v, hv, hne, ?_, ?_⟩ <;>
        by_cases h3 : truthyStr p.2.supervisor_reasoning = true <;>
          simp [stepChunk, h1, h3, hf, hv, hv2]
    · left
      have hf2 : truthyStr p.2.final_response = false := by simpa using hf
      constructor <;>
        by_cases h3 : truthyStr p.2.supervisor_reasoning = true <;>
          simp [stepChunk, h1, h3, hf2]
  · left
    constructor <;>
      simp [stepChunk, h1, apply_ite (fun s : StreamUI => s.responseUpdates),
        apply_ite (fun s : StreamUI => s.full_response)]

theorem processStream_response_provenance (chunks : List (String × NodeOutput)) :
    ∀ (ui : StreamUI) (u : String), u ∈ (processStream ui chunks).responseUpdates →
      u ∈ ui.responseUpdates ∨
        ∃ out v, ("supervisor_node", out) ∈ chunks ∧ out.final_response = some v ∧
          v ≠ "" ∧ u = "**Final Response:**\n\n" ++ v := by
  induction chunks with
  | nil =>
    intro ui u hu
    exact Or.inl hu
  | cons p rest ih =>
    intro ui u hu
    rcases ih (stepChunk ui p) u hu with hmem | ⟨out, v, hin, hfv, hne, hequ⟩
    · rcases stepChunk_updates ui p with ⟨heq, _⟩ | ⟨hsup, v, hv, hne, hupd, _⟩
      · rw [heq] at hmem
        exact Or.inl hmem
      · rw [hupd] at hmem
        rcases List.mem_append.mp hmem with hmem2 | hmem2
        · exact Or.inl hmem2
        · right
          have hp : ("supervisor_node", p.2) = p := by rw [← hsup]
        
          exact ⟨p.2, v, by rw [hp]; exact List.mem_cons_self p rest, hv, hne,
            by simpa using hmem2⟩
    · exact Or.inr ⟨out, v, List.mem_cons_of_mem p hin, hfv, hne, hequ⟩

theorem processStream_no_final (chunks : List (String × NodeOutput)) :
    ∀ ui, (∀ p ∈ chunks, p.1 = "supervisor_node" →
        truthyStr p.2.final_response = false) →
      (processStream ui chunks).responseUpdates = ui.responseUpdates ∧
      (processStream ui chunks).full_response = ui.full_response := by
  induction chunks with
  | nil =>
    intro ui _
    exact ⟨rfl, rfl⟩
  | cons p rest ih =>
    intro ui hall
    have hstep : (stepChunk ui p).responseUpdates = ui.responseUpdates ∧
        (stepChunk ui p).full_response = ui.full_response := by
      rcases stepChunk_updates ui p with h | ⟨hsup, v, hv, hne, _, _⟩
      · exact h
      · have hcontra := hall p (List.mem_cons_self p rest) hsup
        rw [hv] at hcontra
        simp [truthyStr] at hcontra
        exact absurd hcontra hne
    have hrest := ih (stepChunk ui p) (fun q hq => hall q (List.mem_cons_of_mem p hq))
    exact ⟨hrest.1.trans hstep.1, hrest.2.trans hstep.2⟩

theorem stepChunk_scrub (ui1 ui2 : StreamUI) (p : String × NodeOutput)
    (hr : ui1.responseUpdates = ui2.responseUpdates)
    (hf : ui1.full_response = ui2.full_response) :
    (stepChunk ui1 (scrubPair p)).responseUpdates
        = (stepChunk ui2 p).responseUpdates ∧
    (stepChunk ui1 (scrubPair p)).full_response
        = (stepChunk ui2 p).full_response := by
  by_cases h1 : p.1 = "supervisor_node"
  · by_cases hfr : truthyStr p.2.final_response = true
    · by_cases h3 : truthyStr p.2.supervisor_reasoning = true <;>
        constructor <;>
          simp [stepChunk, scrubPair, scrubNodeOutput, h1, h3, hfr, hr, hf]
    · have hfr2 : truthyStr p.2.final_response = false := by simpa using hfr
      by_cases h3 : truthyStr p.2.supervisor_reasoning = true <;>
        constructor <;>
          simp [stepChunk, scrubPair, scrubNodeOutput, h1, h3, hfr2, hr, hf]
  · constructor <;>
      simp [stepChunk, scrubPair, scrubNodeOutput, h1, hr, hf,
        apply_ite (fun s : StreamUI => s.responseUpdates),
        apply_ite (fun s : StreamUI => s.full_response)]

theorem processStream_scrub (chunks : List (String × NodeOutput)) :
    ∀ ui1 ui2 : StreamUI, ui1.responseUpdates = ui2.responseUpdates →
      ui1.full_response = ui2.full_response →
      (processStream ui1 (chunks.map scrubPair)).responseUpdates
          = (processStream ui2 chunks).responseUpdates ∧
      (processStream ui1 (chunks.map scrubPair)).full_response
          = (processStream ui2 chunks).full_response := by
  induction chunks with
  | nil =>
    intro ui1 ui2 hr hf
    exact ⟨hr, hf⟩
  | cons p rest ih =>
    intro ui1 ui2 hr hf
    have h := stepChunk_scrub ui1 ui2 p hr hf
    exact ih (stepChunk ui1 (scrubPair p)) (stepChunk ui2 p) h.1 h.2

/-- Claim C6: only the message content is ever written to the primary
response surface: every primary update originates from a non-empty
final_response of a supervisor node output; when no supervisor output is
final, nothing is written to the primary surface and full_response stays
empty; and erasing the reasoning and delegate_to fields from every chunk
leaves the primary surface unchanged, so those fields are never delivered
as primary content (delegation information reaches only the separate
status surfaces). -/
theorem streaming_primary_content_only (chunks : List (String × NodeOutput)) :
    (∀ u ∈ (processStream initUI chunks).responseUpdates,
      ∃ out v, ("supervisor_node", out) ∈ chunks ∧ out.final_response = some v ∧
        v ≠ "" ∧ u = "**Final Response:**\n\n" ++ v) ∧
    ((∀ p ∈ chunks, p.1 = "supervisor_node" →
        truthyStr p.2.final_response = false) →
      (processStream initUI chunks).responseUpdates = [] ∧
      (processStream initUI chunks).full_response = "") ∧
    ((processStream initUI (chunks.map scrubPair)).responseUpdates
        = (processStream initUI chunks).responseUpdates ∧
     (processStream initUI (chunks.map scrubPair)).full_response
        = (processStream initUI chunks).full_response) := by
  refine ⟨?_, ?_, ?_⟩
  · intro u hu
    rcases processStream_response_provenance chunks initUI u hu with hmem | h
    · exact absurd hmem (by simp [initUI])
    · exact h
  · intro hall
    exact processStream_no_final chunks initUI hall
  · exact processStream_scrub chunks initUI initUI rfl rfl

/-- Claim C8: both factory functions ignore their arguments and return the
module-level agent object: create_supervisor_agent returns the same agent
for every pair of session identifiers, and create_email_draft_agent
returns the module-level email agent for all credential paths and session
identifiers. -/
theorem agent_factories_return_module_agent :
    (∀ s1 s2 : Option String, create_supervisor_agent s1 = create_supervisor_agent s2) ∧
    (∀ s : Option String, create_supervisor_agent s = supervisor_agent) ∧
    (∀ (c t : String) (s : Option String),
      create_email_draft_agent c t s = email_draft_agent) :=
  ⟨fun _ _ => rfl, fun _ => rfl, fun _ _ _ => rfl⟩

theorem pyTry_ok (body : PyResult Dict) (handler : PyErr → Dict) :
    ∃ d, pyTry body handler = Except.ok d := by
  cases body with
  | ok d => exact ⟨d, rfl⟩
  | error e => exact ⟨handler e, rfl⟩

/-- Counterexample to C9 as stated: on the input of a blank API key (which
makes the wrapped workspaces call irrelevant), get_workspace_info_tool
propagates a ValueError to its caller instead of returning an error dict. -/
theorem get_workspace_info_tool_blank_key_raises :
    get_workspace_info_tool "" (Except.ok [])
      = Except.error (PyErr.valueError "Asana API key is required") := rfl

/-- Claim C9 (amended): the three Gmail tool functions never propagate an
exception for any input: whatever the wrapped call does they return a
dict, and when it raises, a dict containing success False and an error
string; get_workspace_info_tool behaves the same way PROVIDED its api_key
is not blank - for a blank key it raises ValueError before the try block
(see the counterexample). -/
theorem worker_tools_error_channel (api_key : String)
    (hkey : pyStrip api_key ≠ "") :
    (∀ (ext : GmailDraftArgs → PyResult Dict) (r s b : String)
       (cc bcc : Option String),
       ∃ d, create_gmail_draft ext r s b cc bcc = Except.ok d) ∧
    (∀ (e : PyErr) (r s b : String) (cc bcc : Option String),
       returnsErrorDict (create_gmail_draft (fun _ => Except.error e) r s b cc bcc)) ∧
    (∀ (ext : Nat → PyResult Dict) (m : Nat),
       ∃ d, list_gmail_drafts ext m = Except.ok d) ∧
    (∀ (e : PyErr) (m : Nat),
       returnsErrorDict (list_gmail_drafts (fun _ => Except.error e) m)) ∧
    (∀ (ext : GmailDraftArgs → PyResult Dict) (r s p : String)
       (rc kf : Option String) (tone : String),
       ∃ d, draft_research_based_email ext r s p rc kf tone = Except.ok d) ∧
    (∀ (e : PyErr) (r s p : String) (rc kf : Option String) (tone : String),
       returnsErrorDict
         (draft_research_based_email (fun _ => Except.error e) r s p rc kf tone)) ∧
    (∀ ext : PyResult (List AsanaWorkspace),
       ∃ d, get_workspace_info_tool api_key ext = Except.ok d) ∧
    (∀ e : PyErr,
       returnsErrorDict (get_workspace_info_tool api_key (Except.error e))) := by
  have hne : api_key ≠ "" := fun h => hkey (by rw [h]; rfl)
  have hcond : (api_key == "" || pyStrip api_key == "") = false := by
    simp [hne, hkey]
  refine ⟨?_, ?_, ?_, ?_, ?_, ?_, ?_, ?_⟩
  · intro ext r s b cc bcc
    unfold create_gmail_draft
    exact pyTry_ok _ _
  · intro e r s b cc bcc
    exact ⟨gmailCreateFailDict r s e, rfl, rfl, pyErrMsg e, rfl⟩
  · intro ext m
    unfold list_gmail_drafts
    exact pyTry_ok _ _
  · intro e m
    exact ⟨gmailListFailDict e, rfl, rfl, pyErrMsg e, rfl⟩
  · intro ext r s p rc kf tone
    unfold draft_research_based_email
    exact pyTry_ok _ _
  · intro e r s p rc kf tone
    exact ⟨draftFailDict r s p e, rfl, rfl, pyErrMsg e, rfl⟩
  · intro ext
    unfold get_workspace_info_tool
    simp only [hcond, Bool.false_eq_true, if_false]
    exact pyTry_ok _ _
  · intro e
    unfold get_workspace_info_tool
    simp only [hcond, Bool.false_eq_true, if_false]
    exact ⟨asanaFailDict e, rfl, rfl, pyErrMsg e, rfl⟩

/-- Witness for C9 (amended) at the concrete key "key" and a concrete
raised exception. -/
theorem worker_tools_error_channel_witness :
    pyStrip "key" ≠ "" ∧
    returnsErrorDict
      (get_workspace_info_tool "key" (Except.error (PyErr.exception "boom"))) :=
  ⟨by decide,
   (worker_tools_error_channel "key" (by decide)).2.2.2.2.2.2.2
     (PyErr.exception "boom")⟩

theorem parseEmailList_spec (o : Option String) :
    (if (parseEmailList o).isEmpty then none else some (parseEmailList o))
      = ccListSpec o := by
  cases o with
  | none => rfl
  | some s =>
    by_cases h : s = ""
    · subst h
      decide
    · have hbeq : (s == "") = false := by simp [h]
      simp [parseEmailList, ccListSpec, hbeq]

/-- Claim C10: the recipient list handed to the wrapped draft-creation
call is exactly the one-element list of the stripped recipient, and each
provided cc/bcc string is split on commas, stripped piecewise, cleared of
empty pieces, and replaced by None when nothing non-empty remains. -/
theorem create_gmail_draft_recipient_parsing (ext : GmailDraftArgs → PyResult Dict)
    (recipient_email subject body : String) (cc_emails bcc_emails : Option String) :
    create_gmail_draft ext recipient_email subject body cc_emails bcc_emails
      = pyTry (ext { «to» := [pyStrip recipient_email], subject := subject,
                     body := body, cc := ccListSpec cc_emails,
                     bcc := ccListSpec bcc_emails })
          (gmailCreateFailDict recipient_email subject) := by
  simp only [create_gmail_draft, parseEmailList_spec]

end SupervisorSpec
